import Mathlib

/-!
# Verification of the `CrawlSpider` rule engine (`scrapy/contrib/spiders/crawl.py`)

Shallow embedding of the rule-driven link-traversal engine:

* `Rule.__init__` — rule construction with the `follow` default computed from
  the truthiness of the `callback` argument;
* `CrawlSpider._compile_rules` — per-instance shallow copy (`copy.copy`) of the
  class-level rule templates, resolving name-valued `callback`/`process_links`
  references against the spider instance via `getattr(self, name, None)`;
* `CrawlSpider.parse` — the dispatcher selecting the first rule whose callback
  is truthy and whose link extractor matches the response URL;
* `CrawlSpider._requests_to_follow` — the link collector with its per-call
  `seen` set shared across the rule loop;
* `CrawlSpider._response_downloaded` — the result assembler, gated by the
  `CRAWLSPIDER_FOLLOW_LINKS` setting.

The engine layer (dispatch, collection, assembly) operates on compiled rules,
whose `callback`/`process_links` are already resolved to a function or `None`
and whose `cb_kwargs` dict is only ever read; it is embedded with kwargs as
plain values (`CompiledRule`).  The construction/compilation layer (`Rule`,
`Rule.init`, `compileRule`) additionally models the object identity of the
`cb_kwargs` dict — Python dicts are mutable heap objects and `copy.copy`
copies the reference, not the dict — with an explicit heap of numbered dict
cells, so that sharing between a template and its compiled copy is
expressible.
-/

set_option autoImplicit false

namespace Crawl

/-- A hyperlink as produced by a link extractor: URL plus anchor text. -/
structure Link where
  url : String
  text : String
deriving DecidableEq, Repr

/-- A downloaded response; the engine only inspects `url`, callbacks may also
read the body. -/
structure Response where
  url : String
  body : String
deriving DecidableEq, Repr

/-- An extracted item produced by a rule callback (opaque to the engine). -/
abbrev Item := String

/-- Contents of a `cb_kwargs` keyword-argument dict. -/
abbrev KwArgs := List (String × String)

/-- A resolved rule callback: `callback(response, **cb_kwargs)` yielding a
list of extracted items.  (`None` is represented as `Option.none` at use
sites.) -/
abbrev Callback := Response → KwArgs → List Item

/-- A resolved `process_links` hook: receives the links that survived this
rule's dedup filter and returns the links to actually follow. -/
abbrev LinkProc := List Link → List Link

/-- External link-extractor capability attached to a rule: `matches(url)`
(named `matchesUrl` here, `matches` being a Lean keyword) reports whether a
URL is in the rule's scope, `extract_urls(response)` yields the in-scope links
of a response, in document order. -/
structure LinkExtractor where
  matchesUrl : String → Bool
  extract_urls : Response → List Link

/-- A compiled crawling rule as the engine sees it: `callback` and
`process_links` are already resolved to a function or `None`
(`_compile_rules` has run), and `cb_kwargs` holds the dict contents. -/
structure CompiledRule where
  link_extractor : LinkExtractor
  callback : Option Callback
  cb_kwargs : KwArgs
  follow : Bool
  process_links : Option LinkProc

/-- An outgoing request built by `_requests_to_follow`: the `Request` object
carries the link's URL and text, and
`append_callback(self._response_downloaded, rule.callback,
cb_kwargs=rule.cb_kwargs, follow=rule.follow)` attaches the rule's
continuation. -/
structure OutgoingRequest where
  url : String
  link_text : String
  callback : Option Callback
  cb_kwargs : KwArgs
  follow : Bool

/-- One element of the list returned by `_response_downloaded`: either a
request to follow or an extracted item. -/
inductive Result where
  | req (r : OutgoingRequest)
  | item (i : Item)

/-- Whether a result element is an outgoing request. -/
def Result.isReq : Result → Bool
  | .req _ => true
  | .item _ => false

/-- The spider's state as seen by the engine: the compiled rule list
`self._rules` and the overridable `process_results` hook (whose base-class
implementation returns its input unchanged). -/
structure CrawlSpider where
  rules : List CompiledRule
  process_results : List Item → Response → List Item

/-- The ambient configuration:
`settings.getbool('CRAWLSPIDER_FOLLOW_LINKS', True)`, threaded explicitly. -/
structure Settings where
  follow_links : Bool

/-- The loop condition of `CrawlSpider.parse`:
`rule.callback and rule.link_extractor.matches(response.url)` (a compiled
rule's callback is a function or `None`, so its truthiness is `isSome`). -/
def ruleApplies (response : Response) (rule : CompiledRule) : Bool :=
  rule.callback.isSome && rule.link_extractor.matchesUrl response.url

/-- Build the `Request` for one link under one rule (`_requests_to_follow`
loop body: the `Request(...)` construction plus `append_callback`). -/
def mkRequest (rule : CompiledRule) (link : Link) : OutgoingRequest :=
  ⟨link.url, link.text, rule.callback, rule.cb_kwargs, rule.follow⟩

/-- The rule loop of `CrawlSpider._requests_to_follow`, with the `seen` set
threaded through: for each rule, keep the extracted links not already in
`seen`, run `process_links` when the surviving list is non-empty and the rule
has one, union the resulting links into `seen`, and emit one request per
resulting link.  (`seen` is a Python `set`; a list used only through
membership and union is an equivalent embedding.) -/
def requestsLoop (response : Response) (seen : List Link) :
    List CompiledRule → List OutgoingRequest
  | [] => []
  | rule :: rest =>
    let links := (rule.link_extractor.extract_urls response).filter
      (fun l => !(seen.contains l))
    let links := match rule.process_links with
      | some f => if links.isEmpty then links else f links
      | none => links
    links.map (mkRequest rule) ++ requestsLoop response (seen ++ links) rest

/-- `CrawlSpider._requests_to_follow`: the `seen` set starts empty on every
call. -/
def requestsToFollow (sp : CrawlSpider) (response : Response) :
    List OutgoingRequest :=
  requestsLoop response [] sp.rules

/-- `_requests_to_follow` as a transition on the spider state: the method body
reads `self._rules` and assigns no attribute of `self` (its `requests` and
`seen` variables are locals), so the resulting state is the input state. -/
def requestsToFollowSt (sp : CrawlSpider) (response : Response) :
    List OutgoingRequest × CrawlSpider :=
  (requestsToFollow sp response, sp)

/-- `CrawlSpider._response_downloaded`: follow-requests first (when both the
call's `follow` flag and the global setting allow it), then the callback's
results after the `process_results` hook. -/
def responseDownloaded (settings : Settings) (sp : CrawlSpider)
    (response : Response) (callback : Option Callback) (cb_kwargs : KwArgs)
    (follow : Bool) : List Result :=
  let res1 : List Result :=
    if follow && settings.follow_links then
      (requestsToFollow sp response).map Result.req
    else []
  let res2 : List Result :=
    match callback with
    | some cb =>
      (sp.process_results (cb response cb_kwargs) response).map Result.item
    | none => []
  res1 ++ res2

/-- The rule scan of `CrawlSpider.parse`: return at the first rule whose
callback is truthy and whose extractor matches the URL; after the loop, fall
back to no callback and a fresh empty kwargs dict, always with
`follow=True`. -/
def parseLoop (settings : Settings) (sp : CrawlSpider) (response : Response) :
    List CompiledRule → List Result
  | [] => responseDownloaded settings sp response none [] true
  | rule :: rest =>
    if ruleApplies response rule then
      responseDownloaded settings sp response rule.callback rule.cb_kwargs true
    else
      parseLoop settings sp response rest

/-- `CrawlSpider.parse`: scan `self._rules`. -/
def parse (settings : Settings) (sp : CrawlSpider) (response : Response) :
    List Result :=
  parseLoop settings sp response sp.rules

/-! ## Rule construction and compilation

`Rule.__init__` receives `callback`/`process_links` as `None`, a method name,
or a function, and `cb_kwargs` as `None` or a dict object; `_compile_rules`
later copies each rule shallowly and rebinds the two references.  Dict objects
live in an explicit heap of numbered cells so that the sharing produced by
`copy.copy` is observable. -/

/-- A `callback`/`process_links` value as stored on a rule: `None`, a string
naming a spider attribute, or a function. -/
inductive MethodRef (α : Type) where
  | none
  | name (s : String)
  | fn (f : α)

/-- Python truthiness of such a value: `None` and the empty string are falsy,
every function and every non-empty string is truthy. -/
def MethodRef.truthy {α : Type} : MethodRef α → Bool
  | .none => false
  | .name s => !(s == "")
  | .fn _ => true

/-- The heap of `cb_kwargs` dict objects, addressed by number. -/
def Heap := Nat → KwArgs

/-- An in-place mutation of the dict object at address `r`. -/
def heapWrite (h : Heap) (r : Nat) (v : KwArgs) : Heap :=
  fun x => if x = r then v else h x

/-- A rule as stored on a spider (template or compiled): `cb_kwargs` is a
reference to a dict object in the heap. -/
structure Rule where
  link_extractor : LinkExtractor
  callback : MethodRef Callback
  cb_kwargs : Nat
  follow : Bool
  process_links : MethodRef LinkProc

/-- `Rule.__init__`: `cb_kwargs` is the passed dict reference or, when the
argument is falsy (`None` or an empty dict), a freshly allocated empty dict at
address `fresh` (`self.cb_kwargs = cb_kwargs or {}`); `follow` is the passed
value or, when `None`, `False if callback else True` — the negated truthiness
of the `callback` argument. -/
def Rule.init (le : LinkExtractor) (callback : MethodRef Callback)
    (cb_kwargs : Option Nat) (follow : Option Bool)
    (process_links : MethodRef LinkProc) (h : Heap) (fresh : Nat) :
    Rule × Heap :=
  let fl := match follow with
    | some b => b
    | none => !callback.truthy
  match cb_kwargs with
  | some r =>
    if (h r).isEmpty then
      (⟨le, callback, fresh, fl, process_links⟩, heapWrite h fresh [])
    else
      (⟨le, callback, r, fl, process_links⟩, h)
  | none => (⟨le, callback, fresh, fl, process_links⟩, heapWrite h fresh [])

/-- The attribute table of the spider instance consulted by `get_method` via
`getattr(self, name, None)`, split by the type at which the attribute is
used. -/
structure Spider where
  getattr_cb : String → Option Callback
  getattr_pl : String → Option LinkProc

/-- The nested `get_method` helper of `_compile_rules`: a callable is kept, a
string is looked up on the spider with default `None`, anything else
(i.e. `None`) falls through to `None`. -/
def get_method {α : Type} (lookup : String → Option α) :
    MethodRef α → Option α
  | .fn f => some f
  | .name s => lookup s
  | .none => none

/-- After `_compile_rules`, the `callback`/`process_links` attribute holds the
result of `get_method`: a function or `None`. -/
def resolvedRef {α : Type} : Option α → MethodRef α
  | some f => MethodRef.fn f
  | none => MethodRef.none

/-- The loop body of `_compile_rules`: `copy.copy(r)` duplicates the rule
object field by field — so the copy's `cb_kwargs` field holds a reference to
the same dict object as the template's — and then the copy's `callback` and
`process_links` attributes are rebound to their resolved values. -/
def compileRule (spider : Spider) (r : Rule) : Rule :=
  { link_extractor := r.link_extractor
    callback := resolvedRef (get_method spider.getattr_cb r.callback)
    cb_kwargs := r.cb_kwargs
    follow := r.follow
    process_links := resolvedRef (get_method spider.getattr_pl r.process_links) }

/-- `CrawlSpider._compile_rules`:
`self._rules = [copy.copy(r) for r in self.rules]`, then each copy's
references are resolved in place. -/
def compileRules (spider : Spider) (templates : List Rule) : List Rule :=
  templates.map (compileRule spider)

/-! ## Concrete fixtures -/

/-- The `/a/x` page link. -/
def aX : Link := ⟨"/a/x", "ax"⟩

/-- The `/b/y` page link. -/
def bY : Link := ⟨"/b/y", "by"⟩

/-- Extractor scoped to `/a`: of the page's two links it extracts `/a/x`. -/
def leA : LinkExtractor :=
  ⟨fun u => u == "/a/x" || u == "/a", fun _ => [aX]⟩

/-- Extractor scoped to `/a` and `/b`: it extracts both page links. -/
def leAB : LinkExtractor :=
  ⟨fun u => u == "/a/x" || u == "/b/y" || u == "/a" || u == "/b",
   fun _ => [aX, bY]⟩

/-- Witness fixture: a page at `/p`. -/
def respW : Response := ⟨"/p", "body"⟩

/-- First witness link. -/
def lnk1 : Link := ⟨"/l1", "t1"⟩

/-- Second witness link. -/
def lnk2 : Link := ⟨"/l2", "t2"⟩

/-- Witness extractor: everything in scope, extracts the two witness links. -/
def leW : LinkExtractor := ⟨fun _ => true, fun _ => [lnk1, lnk2]⟩

/-- Witness callback producing two items. -/
def cbW : Callback := fun _ _ => ["I1", "I2"]

/-- Witness rule: no callback, follows links, no post-processor. -/
def ruleW : CompiledRule := ⟨leW, none, [], true, none⟩

/-- Witness spider: one rule, identity `process_results`. -/
def spW : CrawlSpider := ⟨[ruleW], fun rs _ => rs⟩

/-- A rule whose callback is absent: never dispatched to. -/
def ruleNoCb : CompiledRule := ⟨leW, none, [], true, none⟩

/-- A rule with a callback and an everything-matcher: the dispatch target. -/
def ruleYes : CompiledRule := ⟨leW, some cbW, [("k", "v")], false, none⟩

/-- A later rule that also matches, to be shadowed by `ruleYes`. -/
def ruleLater : CompiledRule :=
  ⟨leW, some (fun _ _ => ["later"]), [], false, none⟩

/-- Witness spider for the dispatcher: callback-less rule first, then two
rules whose matchers both accept every URL. -/
def spDispatch : CrawlSpider :=
  ⟨[ruleNoCb, ruleYes, ruleLater], fun rs _ => rs⟩

/-- A trivial extractor for construction-layer fixtures. -/
def trivLE : LinkExtractor := ⟨fun _ => false, fun _ => []⟩

/-- The all-empty-dicts heap. -/
def h0 : Heap := fun _ => []

/-- A spider instance on which no attribute name resolves. -/
def spider0 : Spider := ⟨fun _ => Option.none, fun _ => Option.none⟩

/-- A rule template whose `cb_kwargs` dict lives at address 0. -/
def tpl0 : Rule := ⟨trivLE, MethodRef.none, 0, true, MethodRef.none⟩

/-- A second rule template whose `cb_kwargs` dict lives at address 1. -/
def tpl1 : Rule := ⟨trivLE, MethodRef.none, 1, true, MethodRef.none⟩

/-- A rule template with unresolvable names for both references. -/
def tplU : Rule := ⟨trivLE, MethodRef.name "cb", 0, false, MethodRef.name "pl"⟩

/-! ## Link collection under overlapping rules -/

/-- C1: with R1 (matcher scoped to `/a`) declared before R2 (matcher scoped to
`/a` and `/b`), no link post-processors, and a response whose links are `/a/x`
and `/b/y`, the collector produces exactly one request for `/a/x` carrying
R1's callback, kwargs and follow flag, and one request for `/b/y` carrying
R2's continuation — no duplicate request for `/a/x`, since `/a/x` enters
`seen` under R1 and is filtered from R2's candidates. -/
theorem requests_overlapping_rules_dedup
    (cb1 cb2 : Option Callback) (k1 k2 : KwArgs) (f1 f2 : Bool)
    (pr : List Item → Response → List Item) (resp : Response) :
    requestsToFollow
      ⟨[⟨leA, cb1, k1, f1, none⟩, ⟨leAB, cb2, k2, f2, none⟩], pr⟩ resp
      = [⟨"/a/x", "ax", cb1, k1, f1⟩, ⟨"/b/y", "by", cb2, k2, f2⟩] := by
  simp [requestsToFollow, requestsLoop, mkRequest, leA, leAB, aX, bY]

/-! ## Result-assembly order -/

/-- C2: with the global follow toggle on, a `follow=true` call, the base-class
(identity) `process_results` hook, link collection yielding `[q1, q2]` and the
callback yielding `[i1, i2]`, the assembled batch is the two follow-requests
first, then the two items, in exactly that order. -/
theorem response_downloaded_batch_order
    (sp : CrawlSpider) (resp : Response) (cb : Callback) (kwargs : KwArgs)
    (q1 q2 : OutgoingRequest) (i1 i2 : Item)
    (hpr : sp.process_results = fun rs _ => rs)
    (hreq : requestsToFollow sp resp = [q1, q2])
    (hcb : cb resp kwargs = [i1, i2]) :
    responseDownloaded ⟨true⟩ sp resp (some cb) kwargs true
      = [.req q1, .req q2, .item i1, .item i2] := by
  simp [responseDownloaded, hpr, hreq, hcb]

/-- Witness for `response_downloaded_batch_order` at a concrete spider,
response and callback. -/
theorem response_downloaded_batch_order_witness :
    responseDownloaded ⟨true⟩ spW respW (some cbW) [] true
      = [.req (mkRequest ruleW lnk1), .req (mkRequest ruleW lnk2),
         .item "I1", .item "I2"] :=
  response_downloaded_batch_order spW respW cbW []
    (mkRequest ruleW lnk1) (mkRequest ruleW lnk2) "I1" "I2" rfl rfl rfl

/-! ## Dispatcher -/

/-- `parseLoop` returns at the first rule satisfying the loop condition,
regardless of the rules after it. -/
theorem parseLoop_first (settings : Settings) (sp : CrawlSpider)
    (resp : Response) (pre : List CompiledRule) (rule : CompiledRule)
    (post : List CompiledRule)
    (hpre : ∀ r ∈ pre, ruleApplies resp r = false)
    (hrule : ruleApplies resp rule = true) :
    parseLoop settings sp resp (pre ++ rule :: post)
      = responseDownloaded settings sp resp rule.callback rule.cb_kwargs
          true := by
  induction pre with
  | nil => simp [parseLoop, hrule]
  | cons a pre ih =>
    have ha : ruleApplies resp a = false := hpre a (by simp)
    simp only [List.cons_append, parseLoop, ha, if_neg]
    exact ih fun r hr => hpre r (by simp [hr])

/-- When no rule satisfies the loop condition, `parseLoop` falls through to
the no-callback call. -/
theorem parseLoop_fallthrough (settings : Settings) (sp : CrawlSpider)
    (resp : Response) (rules : List CompiledRule)
    (hnone : ∀ r ∈ rules, ruleApplies resp r = false) :
    parseLoop settings sp resp rules
      = responseDownloaded settings sp resp none [] true := by
  induction rules with
  | nil => rfl
  | cons a rules ih =>
    have ha : ruleApplies resp a = false := hnone a (by simp)
    simp only [parseLoop, ha, if_neg]
    exact ih fun r hr => hnone r (by simp [hr])

/-- C3: `parse` dispatches on the first rule, in declared order, whose
callback is non-none and whose matcher accepts the response URL — whatever
rules follow it; and when no rule qualifies, the response is processed with no
callback and empty kwargs, still with `follow=true`. -/
theorem parse_first_matching_rule (settings : Settings) (sp : CrawlSpider)
    (resp : Response) :
    (∀ pre rule post, sp.rules = pre ++ rule :: post →
      (∀ r ∈ pre, ruleApplies resp r = false) →
      ruleApplies resp rule = true →
      parse settings sp resp
        = responseDownloaded settings sp resp rule.callback rule.cb_kwargs
            true)
    ∧ ((∀ r ∈ sp.rules, ruleApplies resp r = false) →
      parse settings sp resp
        = responseDownloaded settings sp resp none [] true) := by
  constructor
  · intro pre rule post hsplit hpre hrule
    rw [parse, hsplit]
    exact parseLoop_first settings sp resp pre rule post hpre hrule
  · intro hnone
    rw [parse]
    exact parseLoop_fallthrough settings sp resp sp.rules hnone

/-- Witness for `parse_first_matching_rule`: the middle rule wins even though
the rule after it also matches. -/
theorem parse_first_matching_rule_witness :
    parse ⟨true⟩ spDispatch respW
      = responseDownloaded ⟨true⟩ spDispatch respW ruleYes.callback
          ruleYes.cb_kwargs true :=
  (parse_first_matching_rule ⟨true⟩ spDispatch respW).1
    [ruleNoCb] ruleYes [ruleLater] rfl
    (fun r hr => by rw [List.mem_singleton] at hr; rw [hr]; rfl) rfl

/-! ## The global follow toggle -/

/-- Requests survive no `!isReq` filter. -/
theorem filter_not_isReq_map_req (l : List OutgoingRequest) :
    (l.map Result.req).filter (fun x => !x.isReq) = [] := by
  induction l with
  | nil => rfl
  | cons a l ih => simp [Result.isReq, ih]

/-- Items all survive the `!isReq` filter. -/
theorem filter_not_isReq_map_item (l : List Item) :
    (l.map Result.item).filter (fun x => !x.isReq) = l.map Result.item := by
  induction l with
  | nil => rfl
  | cons a l ih => simp [Result.isReq, ih]

/-- Items are not requests. -/
theorem all_not_isReq_map_item (l : List Item) :
    (l.map Result.item).all (fun x => !x.isReq) = true := by
  induction l with
  | nil => rfl
  | cons a l ih => simp [Result.isReq, ih]

/-- C5: with the global `CRAWLSPIDER_FOLLOW_LINKS` setting off, the batch
contains no follow-request at all — for every spider (in particular one whose
rules all have `follow=true`) and every value of the call's `follow` argument
— and it equals exactly the non-request portion of the batch the enabled
setting would produce, so the callback-derived results are unaffected by the
toggle. -/
theorem follow_links_disabled_no_requests (sp : CrawlSpider) (resp : Response)
    (callback : Option Callback) (kwargs : KwArgs) (follow : Bool) :
    responseDownloaded ⟨false⟩ sp resp callback kwargs follow
      = (responseDownloaded ⟨true⟩ sp resp callback kwargs follow).filter
          (fun x => !x.isReq)
    ∧ (responseDownloaded ⟨false⟩ sp resp callback kwargs follow).all
        (fun x => !x.isReq) = true := by
  cases callback with
  | none =>
    cases follow <;>
      simp [responseDownloaded, filter_not_isReq_map_req]
  | some cb =>
    cases follow <;>
      simp [responseDownloaded, filter_not_isReq_map_req,
        filter_not_isReq_map_item, all_not_isReq_map_item]

/-! ## Statelessness of the collector -/

/-- C8: the collector mutates no spider state (its `requests` list and `seen`
set are per-call locals, and `seen` starts empty on every call), so running it
again on the same response from the post-call state yields a structurally
identical request sequence. -/
theorem requests_to_follow_stateless (sp : CrawlSpider) (resp : Response) :
    (requestsToFollowSt sp resp).2 = sp
    ∧ (requestsToFollowSt (requestsToFollowSt sp resp).2 resp).1
        = (requestsToFollowSt sp resp).1 :=
  ⟨rfl, rfl⟩

/-! ## `process_links` output bypasses the dedup filter -/

/-- C9: the `seen` filter applies to a rule's raw extracted links, before its
`process_links` hook runs; the hook's entire output is turned into requests
and unioned into `seen`.  So with rule 1 extracting `l`, rule 2 extracting
`l2 ≠ l` but post-processing it to `[l]`, and rule 3 extracting `l` again, the
call emits a duplicate request for `l` (under rule 1's and rule 2's
continuations) while rule 3, filtered against `seen`, emits nothing. -/
theorem process_links_bypasses_dedup
    (l l2 : Link) (cb1 cb2 cb3 : Option Callback) (k1 k2 k3 : KwArgs)
    (f1 f2 f3 : Bool) (pr : List Item → Response → List Item)
    (resp : Response) (hne : l2 ≠ l) :
    requestsToFollow
      ⟨[⟨⟨fun _ => true, fun _ => [l]⟩, cb1, k1, f1, none⟩,
        ⟨⟨fun _ => true, fun _ => [l2]⟩, cb2, k2, f2, some (fun _ => [l])⟩,
        ⟨⟨fun _ => true, fun _ => [l]⟩, cb3, k3, f3, none⟩], pr⟩ resp
      = [⟨l.url, l.text, cb1, k1, f1⟩, ⟨l.url, l.text, cb2, k2, f2⟩] := by
  simp [requestsToFollow, requestsLoop, mkRequest, hne]

/-- Witness for `process_links_bypasses_dedup` at two concrete distinct
links. -/
theorem process_links_bypasses_dedup_witness :
    requestsToFollow
      ⟨[⟨⟨fun _ => true, fun _ => [aX]⟩, none, [], true, none⟩,
        ⟨⟨fun _ => true, fun _ => [bY]⟩, none, [], true,
          some (fun _ => [aX])⟩,
        ⟨⟨fun _ => true, fun _ => [aX]⟩, none, [], true, none⟩],
        fun rs _ => rs⟩ respW
      = [⟨aX.url, aX.text, none, [], true⟩,
         ⟨aX.url, aX.text, none, [], true⟩] :=
  process_links_bypasses_dedup aX bY none none none [] [] [] true true true
    (fun rs _ => rs) respW (by decide)

/-! ## The `follow` default at construction -/

/-- The `follow` field produced by `Rule.__init__`, whichever way the
`cb_kwargs` branch goes. -/
theorem ruleInit_follow (le : LinkExtractor) (callback : MethodRef Callback)
    (cb_kwargs : Option Nat) (follow : Option Bool)
    (process_links : MethodRef LinkProc) (h : Heap) (fresh : Nat) :
    ((Rule.init le callback cb_kwargs follow process_links h fresh).1).follow
      = follow.getD (!callback.truthy) := by
  cases cb_kwargs with
  | none => cases follow <;> rfl
  | some r =>
    cases follow <;> by_cases he : (h r).isEmpty <;>
      simp [Rule.init, he]

/-- C4 counterexample: a rule constructed with a string-valued `callback` (the
empty string) and no explicit `follow` gets `follow = true`, not `false`:
`Rule.__init__` computes the default from the truthiness of the `callback`
argument, and the empty string is falsy in Python. -/
theorem rule_follow_default_empty_name_cex :
    ((Rule.init trivLE (MethodRef.name "") Option.none Option.none
        MethodRef.none h0 0).1).follow = true := by
  rfl

/-- C4 amended: for a rule constructed without an explicit `follow`, the
compiled `follow` is the negated truthiness of the `callback` argument: `true`
when the callback is absent (or an empty-string name, which is falsy), `false`
when it is a function or a non-empty method name.  An explicit `follow` value
is kept as given. -/
theorem rule_follow_default (le : LinkExtractor) (kw : Option Nat)
    (pl : MethodRef LinkProc) (h : Heap) (fresh : Nat) :
    (((Rule.init le MethodRef.none kw Option.none pl h fresh).1).follow
        = true)
    ∧ (∀ f : Callback,
        ((Rule.init le (MethodRef.fn f) kw Option.none pl h fresh).1).follow
          = false)
    ∧ (∀ s : String, s ≠ "" →
        ((Rule.init le (MethodRef.name s) kw Option.none pl h fresh).1).follow
          = false)
    ∧ (∀ (cb : MethodRef Callback) (b : Bool),
        ((Rule.init le cb kw (some b) pl h fresh).1).follow = b) := by
  refine ⟨?_, fun f => ?_, fun s hs => ?_, fun cb b => ?_⟩
  · simp [ruleInit_follow, MethodRef.truthy]
  · simp [ruleInit_follow, MethodRef.truthy]
  · simp [ruleInit_follow, MethodRef.truthy, hs]
  · simp [ruleInit_follow]

/-- Witness for `rule_follow_default`: a non-empty method name yields
`follow = false`. -/
theorem rule_follow_default_witness :
    ((Rule.init trivLE (MethodRef.name "parse_item") Option.none Option.none
        MethodRef.none h0 0).1).follow = false :=
  (rule_follow_default trivLE Option.none MethodRef.none h0 0).2.2.1
    "parse_item" (by decide)

/-! ## Leniency of name resolution -/

/-- C6: compilation is total (it is a plain function; in particular it maps a
rule list to a rule list of the same length), and an unresolvable name — a
string not found among the spider's attributes — resolves to `None` for both
the callback and the link post-processor instead of failing. -/
theorem compile_unresolvable_name_resolves_none (spider : Spider) (t : Rule)
    (s : String) :
    (t.callback = MethodRef.name s → spider.getattr_cb s = Option.none →
      (compileRule spider t).callback = MethodRef.none)
    ∧ (t.process_links = MethodRef.name s → spider.getattr_pl s = Option.none →
      (compileRule spider t).process_links = MethodRef.none)
    ∧ (∀ ts : List Rule, (compileRules spider ts).length = ts.length) := by
  refine ⟨fun hcb hl => ?_, fun hpl hl => ?_, fun ts => ?_⟩
  · simp [compileRule, hcb, get_method, hl, resolvedRef]
  · simp [compileRule, hpl, get_method, hl, resolvedRef]
  · simp [compileRules]

/-- Witness for `compile_unresolvable_name_resolves_none`: a template naming
the missing attributes `cb` and `pl` on a spider with no attributes compiles
to a rule with no callback and no post-processor. -/
theorem compile_unresolvable_name_resolves_none_witness :
    (compileRule spider0 tplU).callback = MethodRef.none
    ∧ (compileRule spider0 tplU).process_links = MethodRef.none :=
  ⟨(compile_unresolvable_name_resolves_none spider0 tplU "cb").1 rfl rfl,
   (compile_unresolvable_name_resolves_none spider0 tplU "pl").2.1 rfl rfl⟩

/-! ## What the compile-time copy does and does not protect -/

/-- C7 counterexample: `copy.copy` is a shallow copy, so the compiled rule's
`cb_kwargs` field references the same dict object as the class-level
template's; an in-place mutation of the compiled rule's kwargs dict (a heap
write through its reference) changes the mapping observed through the
template, falsifying the claim that mutating any field of the compiled copy
leaves the template unchanged. -/
theorem compile_shallow_copy_shares_kwargs_cex :
    heapWrite h0 (compileRule spider0 tpl0).cb_kwargs [("k", "v")]
        tpl0.cb_kwargs ≠ h0 tpl0.cb_kwargs := by
  decide

/-- C7 amended: compilation builds a fresh rule object per template, so
resolving `callback`/`process_links` rebinds attributes of the copy only and
the template keeps its unresolved values and its `follow`; but the copy is
shallow: template and compiled rule share the `cb_kwargs` dict reference, so
an in-place mutation of the compiled rule's dict is visible through its own
template — while any template holding a different dict reference is
unaffected by such a write. -/
theorem compile_copy_sharing (spider : Spider) (t : Rule) :
    (compileRule spider t).cb_kwargs = t.cb_kwargs
    ∧ (compileRule spider t).follow = t.follow
    ∧ (∀ (h : Heap) (v : KwArgs) (t' : Rule),
        t'.cb_kwargs ≠ t.cb_kwargs →
        heapWrite h (compileRule spider t).cb_kwargs v t'.cb_kwargs
          = h t'.cb_kwargs)
    ∧ (∀ ts : List Rule, compileRules spider ts = ts.map (compileRule spider)) := by
  refine ⟨rfl, rfl, fun h v t' hne => ?_, fun ts => rfl⟩
  simp [heapWrite, compileRule, hne]

/-- Witness for `compile_copy_sharing`: writing through the compiled copy of
`tpl0` (dict at address 0) leaves `tpl1`'s dict (address 1) unchanged. -/
theorem compile_copy_sharing_witness :
    heapWrite h0 (compileRule spider0 tpl0).cb_kwargs [("k", "v")]
        tpl1.cb_kwargs = h0 tpl1.cb_kwargs :=
  (compile_copy_sharing spider0 tpl0).2.2.1 h0 [("k", "v")] tpl1 (by decide)

/-! ## `follow` is fixed before resolution and never recomputed -/

/-- C10 counterexample: a rule built with the string-valued callback `""` and
no explicit `follow` compiles to a rule whose callback is `None` but whose
`follow` is `true`, not `false` — the construction-time default used the
truthiness of the string, and the empty string is falsy. -/
theorem compiled_empty_name_follow_cex :
    ((compileRule spider0 ((Rule.init trivLE (MethodRef.name "") Option.none
        Option.none MethodRef.none h0 0).1)).follow = true)
    ∧ ((compileRule spider0 ((Rule.init trivLE (MethodRef.name "") Option.none
        Option.none MethodRef.none h0 0).1)).callback = MethodRef.none) :=
  ⟨rfl, rfl⟩

/-- C10 amended: for a rule built with a non-empty string-valued callback and
no explicit `follow`, the constructed `follow` is `false`, computed from the
unresolved value's truthiness; compilation never recomputes `follow` (it
copies it for every rule), so even when the name fails to resolve the
compiled rule has callback `None` and `follow = false` — it neither processes
pages nor follows links. -/
theorem string_callback_follow_false (le : LinkExtractor) (kw : Option Nat)
    (pl : MethodRef LinkProc) (h : Heap) (fresh : Nat) (s : String)
    (spider : Spider) (hs : s ≠ "") :
    ((Rule.init le (MethodRef.name s) kw Option.none pl h fresh).1).follow
        = false
    ∧ (compileRule spider
        ((Rule.init le (MethodRef.name s) kw Option.none pl h fresh).1)).follow
        = false
    ∧ (spider.getattr_cb s = Option.none →
        (compileRule spider
          ((Rule.init le (MethodRef.name s) kw Option.none pl h
              fresh).1)).callback = MethodRef.none)
    ∧ (∀ r : Rule, (compileRule spider r).follow = r.follow) := by
  have hf : ((Rule.init le (MethodRef.name s) kw Option.none pl h
      fresh).1).follow = false := by
    simp [ruleInit_follow, MethodRef.truthy, hs]
  refine ⟨hf, ?_, fun hl => ?_, fun r => rfl⟩
  · rw [show (compileRule spider ((Rule.init le (MethodRef.name s) kw
        Option.none pl h fresh).1)).follow
        = ((Rule.init le (MethodRef.name s) kw Option.none pl h
            fresh).1).follow from rfl]
    exact hf
  · have hcb : ((Rule.init le (MethodRef.name s) kw Option.none pl h
        fresh).1).callback = MethodRef.name s := by
      cases kw with
      | none => rfl
      | some r => by_cases he : (h r).isEmpty <;> simp [Rule.init, he]
    simp [compileRule, hcb, get_method, hl, resolvedRef]

/-- Witness for `string_callback_follow_false`: the unresolvable non-empty
name `"cb"` yields a compiled rule with callback `None` and `follow =
false`. -/
theorem string_callback_follow_false_witness :
    (compileRule spider0
        ((Rule.init trivLE (MethodRef.name "cb") Option.none Option.none
            MethodRef.none h0 0).1)).follow = false
    ∧ (compileRule spider0
        ((Rule.init trivLE (MethodRef.name "cb") Option.none Option.none
            MethodRef.none h0 0).1)).callback = MethodRef.none :=
  ⟨(string_callback_follow_false trivLE Option.none MethodRef.none h0 0 "cb"
      spider0 (by decide)).2.1,
   (string_callback_follow_false trivLE Option.none MethodRef.none h0 0 "cb"
      spider0 (by decide)).2.2.1 rfl⟩

end Crawl
